import Mathlib

/-
  Verification of the evg EPICS driver (src/evg.c, src/evg.h) for the
  VME-EVG230/RF timing card.

  The driver talks to the card through 12-octet UDP register messages.
  src/evg.c implements a retransmitting transport (readreg / writereg),
  verified register writes (writecheck), and the typed device operations
  (evg_enable, evg_setRfPrescaler, evg_enableSequencer, evg_setEvent,
  evg_setTimestamp, ...), plus the registration command (configure).

  The headers present under src (src/evg.h and the evg.h variant among the
  unnamed device-support files) belong to a single-sequencer card revision:
  they do not declare several identifiers that src/evg.c uses
  (NUMBER_OF_SEQUENCERS, NUMBER_OF_ADDRESSES, CONTROL_ENABLE,
  REGISTER_SEQ_ADDRESS0/1, REGISTER_SEQ_CODE0/1, REGISTER_SEQ_TIME0/1,
  RF_CONTROL_DIVIDER_MASK, EVENT_ENABLE_SEQUENCER0/1, triggersource_t, ...),
  so the header src/evg.c actually compiles against is missing from the
  repository. The values of those missing constants are modelled from the
  specification and are marked as such below. Everything else is translated
  from src/evg.c directly.
-/

namespace Evg

/-! ## Register map and constants -/

/-- Register offset of the control register (src/evg.h, REGISTER_CONTROL). -/
def REGISTER_CONTROL : Nat := 0x00

/-- Register offset of the event enable register (src/evg.h, REGISTER_EVENT_ENABLE). -/
def REGISTER_EVENT_ENABLE : Nat := 0x02

/-- Register offset of the AC enable register (src/evg.h, REGISTER_AC_ENABLE). -/
def REGISTER_AC_ENABLE : Nat := 0x28

/-- Register offset of the RF control register (src/evg.h, REGISTER_RF_CONTROL). -/
def REGISTER_RF_CONTROL : Nat := 0x40

/-- Modelled from the spec: the dual-sequencer register offsets used by
src/evg.c but declared only in the header missing from src
(SEQ_ADDRESS0 = 0x44). -/
def REGISTER_SEQ_ADDRESS0 : Nat := 0x44

/-- Modelled from the spec: SEQ_CODE0 = 0x46, missing header. -/
def REGISTER_SEQ_CODE0 : Nat := 0x46

/-- Modelled from the spec: SEQ_TIME0 = 0x48, missing header. -/
def REGISTER_SEQ_TIME0 : Nat := 0x48

/-- Modelled from the spec: SEQ_ADDRESS1 = 0x50, missing header. -/
def REGISTER_SEQ_ADDRESS1 : Nat := 0x50

/-- Modelled from the spec: SEQ_CODE1 = 0x52, missing header. -/
def REGISTER_SEQ_CODE1 : Nat := 0x52

/-- Modelled from the spec: SEQ_TIME1 = 0x54, missing header. -/
def REGISTER_SEQ_TIME1 : Nat := 0x54

/-- Modelled from the spec: value written to CONTROL by evg_enable(dev, true);
CONTROL_ENABLE = 0x7001 in the header missing from src. -/
def CONTROL_ENABLE : Nat := 0x7001

/-- Modelled from the spec: value written to CONTROL by evg_enable(dev, false);
CONTROL_DISABLE = 0xF001 in the header missing from src. The single-sequencer
src/evg.h defines a different CONTROL_DISABLE (0x8000), but src/evg.c does not
compile against that header. -/
def CONTROL_DISABLE : Nat := 0xF001

/-- Modelled from the spec: two sequencer engines, so the index check of
src/evg.c accepts n in 0..1. -/
def NUMBER_OF_SEQUENCERS : Nat := 2

/-- Modelled from the spec: 2048 sequence RAM addresses, so the address check
of src/evg.c accepts addr in 0..2047. -/
def NUMBER_OF_ADDRESSES : Nat := 2048

/-- Modelled from the spec: divider field mask of RF_CONTROL
(RF_CONTROL_DIVIDER_MASK = 0x003F in the missing header). -/
def RF_CONTROL_DIVIDER_MASK : Nat := 0x003F

/-- Modelled from the spec: EVENT_ENABLE bit for sequencer 0 (0x0004). -/
def EVENT_ENABLE_SEQUENCER0 : Nat := 0x0004

/-- Modelled from the spec: EVENT_ENABLE bit for sequencer 1 (0x0002). -/
def EVENT_ENABLE_SEQUENCER1 : Nat := 0x0002

/-- Maximum number of configured devices (src/evg.c, NUMBER_OF_DEVICES). -/
def NUMBER_OF_DEVICES : Nat := 10

/-- Maximum number of transmissions per exchange (src/evg.c, NUMBER_OF_RETRIES). -/
def NUMBER_OF_RETRIES : Nat := 3

/-- Maximum device name length, exclusive bound (src/evg.h, NAME_LENGTH). -/
def NAME_LENGTH : Nat := 30

/-- Per-attempt poll timeout in milliseconds: the literal 1000 passed to poll
in the retry loops of src/evg.c readreg and writereg. -/
def REPLY_TIMEOUT_MS : Nat := 1000

/-- Access code of a read request (src/evg.h, ACCESS_READ). -/
def ACCESS_READ : Nat := 1

/-- Access code of a write request (src/evg.h, ACCESS_WRITE). -/
def ACCESS_WRITE : Nat := 2

/-- Base address added to every register offset (src/evg.h, REGISTER_BASE_ADDRESS). -/
def REGISTER_BASE_ADDRESS : Nat := 0x80000000

/-! ## Wire codec -/

/-- The 12-octet UDP register message of src/evg.c (message_t): one octet
access, one octet status, 16-bit data, 32-bit address, 32-bit reference.
Multi-octet fields are stored in network byte order on the wire; the numeric
fields here hold the octet pattern as an unsigned value. -/
structure Msg where
  access : Nat
  status : Nat
  data : Nat
  address : Nat
  reference : Nat
deriving Repr, DecidableEq

/-- Size in octets of message_t as laid out in src/evg.c: 1 + 1 + 2 + 4 + 4. -/
def MESSAGE_SIZE : Nat := 12

/-- Byte swap of a 16-bit value, the htons conversion used by src/evg.c when
building the data field of a write request. -/
def htons (x : Nat) : Nat := (x % 256) * 256 + (x / 256) % 256

/-- Byte swap of a 16-bit value, the ntohs conversion used by src/evg.c when
extracting the data field of a reply. -/
def ntohs (x : Nat) : Nat := (x % 256) * 256 + (x / 256) % 256

/-- Byte reversal of a 32-bit value, the htonl conversion used by src/evg.c
when building the address field of a request. -/
def htonl (x : Nat) : Nat :=
  (x % 256) * 16777216 + ((x / 256) % 256) * 65536 +
    ((x / 65536) % 256) * 256 + (x / 16777216) % 256

/-- The read request built by src/evg.c readreg for a register offset. -/
def readRequest (reg : Nat) : Msg :=
  { access := ACCESS_READ, status := 0, data := 0,
    address := htonl (REGISTER_BASE_ADDRESS + reg), reference := 0 }

/-- The write request built by src/evg.c writereg for a register offset and a
16-bit payload. -/
def writeRequest (reg data : Nat) : Msg :=
  { access := ACCESS_WRITE, status := 0, data := htons data,
    address := htonl (REGISTER_BASE_ADDRESS + reg), reference := 0 }

/-! ## Transport retry loop

src/evg.c readreg and writereg share the same loop: up to NUMBER_OF_RETRIES
iterations, each doing write() on the socket, poll() with a 1000 ms timeout,
and read(). An iteration delivers a reply when the write returned the full
message size, the poll reported readiness, and the read returned a full
12-octet datagram; any partial send, send error, timeout, poll error, or
short read makes the loop move to the next iteration. The network environment
of one exchange is modelled as a function from the request and the attempt
index to the results of those three system calls. -/

/-- Outcome of the three system calls of one loop iteration in src/evg.c
readreg or writereg: the return value of write(), the return value of poll()
with timeout REPLY_TIMEOUT_MS, the return value of read(), and the datagram
delivered when the read is complete. -/
structure Attempt where
  sendBytes : Int
  pollResult : Int
  readBytes : Int
  reply : Msg
deriving Repr, DecidableEq

/-- A network environment: the attempt outcomes a given request meets, by
attempt index. -/
def Net : Type := Msg → Nat → Attempt

/-- An iteration of the src/evg.c retry loop breaks out with a reply exactly
when write() returned sizeof(message) = 12, poll() returned a positive count,
and read() returned sizeof(message) = 12. -/
def attemptDelivers (a : Attempt) : Prop :=
  a.sendBytes = 12 ∧ 0 < a.pollResult ∧ a.readBytes = 12

instance (a : Attempt) : Decidable (attemptDelivers a) := by
  unfold attemptDelivers; infer_instance

/-- The retry loop of src/evg.c readreg and writereg, unrolled on remaining
fuel: attempt index i is tried while fuel remains; the first delivering
attempt ends the loop with its datagram, and exhausting the fuel leaves none,
which the caller turns into the -1 failure return. -/
def loopFrom (env : Nat → Attempt) : Nat → Nat → Option Msg
  | _, 0 => none
  | i, fuel + 1 =>
      let a := env i
      if attemptDelivers a then some a.reply else loopFrom env (i + 1) fuel

/-- One full exchange of src/evg.c: send the request and run the retry loop
with NUMBER_OF_RETRIES attempts. -/
def exchangeAttempts (net : Net) (request : Msg) : Option Msg :=
  loopFrom (net request) 0 NUMBER_OF_RETRIES

/-- src/evg.c readreg at the transport level: build the read request, run the
retry loop, and on success extract ntohs(reply.data); none models the -1
return after all retries fail. -/
def readregT (net : Net) (reg : Nat) : Option Nat :=
  match exchangeAttempts net (readRequest reg) with
  | none => none
  | some m => some (ntohs m.data)

/-- src/evg.c writereg at the transport level: build the write request and run
the retry loop; the reply payload is discarded, and none models the -1 return
after all retries fail. -/
def writeregT (net : Net) (reg data : Nat) : Option Unit :=
  match exchangeAttempts net (writeRequest reg data) with
  | none => none
  | some _ => some ()

/-- An all-zero message, used as the datagram slot of attempts that deliver
nothing. -/
def msg0 : Msg := ⟨0, 0, 0, 0, 0⟩

/-- Mock network that drops the first two replies (poll times out) and
answers the third attempt with the given datagram. -/
def dropTwoNet (m : Msg) : Net :=
  fun _ i => if i < 2 then ⟨12, 0, 0, msg0⟩ else ⟨12, 1, 12, m⟩

/-- Mock network that never answers: every poll times out. -/
def dropAllNet : Net :=
  fun _ _ => ⟨12, 0, 0, msg0⟩

/-! ## Register I/O layer

The device operations of src/evg.c call readreg and writereg and see only
their results: a 16-bit value or -1 for a read, 0 or -1 for a write. For the
operation-level claims the two calls are modelled against an oracle that maps
the index of the exchange on the device socket to its outcome, and every
exchange is logged in a trace. none for a read and false for a write model
the -1 return of the transport after all retries fail. -/

/-- Outcome oracle for the register exchanges of one operation: readv gives
the value delivered by the exchange with a given index when it is a read of a
given register, none for a transport failure; writeok tells whether the
exchange with a given index, a write of the given register and data,
succeeds on the wire. -/
structure Oracle where
  readv : Nat → Nat → Option Nat
  writeok : Nat → Nat → Nat → Bool

/-- One logged register exchange: a writereg call with its register, data and
transport outcome, or a readreg call with its register and result. -/
inductive Ev where
  | wr (reg data : Nat) (ok : Bool)
  | rd (reg : Nat) (res : Option Nat)
deriving Repr, DecidableEq

/-- Per-operation device state: the index of the next exchange on the socket,
the trace of exchanges so far, and whether the device mutex is held. -/
structure DState where
  k : Nat
  tr : List Ev
  locked : Bool
deriving Repr, DecidableEq

/-- State at operation entry: no exchange done, empty trace, mutex free. -/
def st0 : DState := ⟨0, [], false⟩

/-- A writereg call as seen by its caller: 0 or -1, one exchange consumed,
one trace entry. -/
def wrStep (o : Oracle) (reg data : Nat) (s : DState) : Int × DState :=
  let ok := o.writeok s.k reg data
  ((if ok then 0 else -1), ⟨s.k + 1, s.tr ++ [Ev.wr reg data ok], s.locked⟩)

/-- A readreg call as seen by its caller: the delivered value or none, one
exchange consumed, one trace entry. -/
def rdStep (o : Oracle) (reg : Nat) (s : DState) : Option Nat × DState :=
  let r := o.readv s.k reg
  (r, ⟨s.k + 1, s.tr ++ [Ev.rd reg r], s.locked⟩)

/-- pthread_mutex_lock on the device mutex. -/
def lockStep (s : DState) : DState := ⟨s.k, s.tr, true⟩

/-- pthread_mutex_unlock on the device mutex. -/
def unlockStep (s : DState) : DState := ⟨s.k, s.tr, false⟩

/-- src/evg.c writecheck: writereg the data, fail on a write error, readreg
the same register back, fail on a read error, fail when the read-back differs
from the written data, succeed otherwise. The null-device guard of the C code
is omitted because the embedding has no null handles. -/
def writecheck (o : Oracle) (reg data : Nat) (s : DState) : Int × DState :=
  let ws := wrStep o reg data s
  if ws.1 < 0 then (-1, ws.2)
  else
    let rs := rdStep o reg ws.2
    match rs.1 with
    | none => (-1, rs.2)
    | some readback => if readback ≠ data then (-1, rs.2) else (0, rs.2)

/-! ## Device operations -/

/-- src/evg.c evg_enable: lock the mutex, write CONTROL_ENABLE to the control
register when enabling and CONTROL_DISABLE when disabling, unlock on the
error path or fall through to the common unlock and return 0. There is no
read-back. The null-device guard is omitted. -/
def evg_enable (o : Oracle) (enable : Bool) (s : DState) : Int × DState :=
  let s1 := lockStep s
  if enable then
    let ws := wrStep o REGISTER_CONTROL CONTROL_ENABLE s1
    if ws.1 < 0 then (-1, unlockStep ws.2) else (0, unlockStep ws.2)
  else
    let ws := wrStep o REGISTER_CONTROL CONTROL_DISABLE s1
    if ws.1 < 0 then (-1, unlockStep ws.2) else (0, unlockStep ws.2)

/-- The 32-bit unsigned pattern of a C int value, used where src/evg.c lets
usual arithmetic conversions act on promoted operands. -/
def u32ofInt (z : Int) : Nat := (z % 4294967296).toNat

/-- The third argument of the writecheck call in src/evg.c evg_setRfPrescaler:
data | (prescaler - 1) is evaluated in the C int type after integer promotion
of the uint16_t data and the uint8_t prescaler, and the result is converted to
the uint16_t parameter. For prescaler = 0 the subtraction yields -1, the or
yields -1, and the parameter conversion yields 0xFFFF. -/
def rfPrescalerArg (data prescaler : Nat) : Nat :=
  (u32ofInt (data : Int) ||| u32ofInt ((prescaler : Int) - 1)) % 65536

/-- src/evg.c evg_setRfPrescaler: lock, reject prescaler >= 32 (prescaler is
uint8_t, so 0 is accepted), read RF_CONTROL, clear the divider field in
uint16_t arithmetic, writecheck the new value, unlock on every path. The
null-device guard is omitted. -/
def evg_setRfPrescaler (o : Oracle) (prescaler : Nat) (s : DState) : Int × DState :=
  let s1 := lockStep s
  if prescaler ≥ 32 then (-1, unlockStep s1)
  else
    let rs := rdStep o REGISTER_RF_CONTROL s1
    match rs.1 with
    | none => (-1, unlockStep rs.2)
    | some data =>
        let cleared := data &&& (0xFFFF ^^^ RF_CONTROL_DIVIDER_MASK)
        let ws := writecheck o REGISTER_RF_CONTROL (rfPrescalerArg cleared prescaler) rs.2
        if ws.1 < 0 then (-1, unlockStep ws.2) else (0, unlockStep ws.2)

/-- src/evg.c evg_enableSequencer: lock, reject sequencer indices at or above
NUMBER_OF_SEQUENCERS, read EVENT_ENABLE. In the C source the statement after
that read is a bare block, not guarded by any if: it prints, unlocks and
returns -1 unconditionally, so the function never reaches the bit toggle and
the write-back that textually follow the block, and those lines are dead
code. The embedding reproduces that control flow; the enable argument is
never consulted. -/
def evg_enableSequencer (o : Oracle) (sequencer : Nat) (_enable : Bool)
    (s : DState) : Int × DState :=
  let s1 := lockStep s
  if sequencer ≥ NUMBER_OF_SEQUENCERS then (-1, unlockStep s1)
  else
    let rs := rdStep o REGISTER_EVENT_ENABLE s1
    (-1, unlockStep rs.2)

/-- src/evg.c evg_setEvent: lock, reject sequencer indices at or above
NUMBER_OF_SEQUENCERS and addresses at or above NUMBER_OF_ADDRESSES, then
writecheck SEQ_ADDRESSn with the address and writecheck SEQ_CODEn with the
event code, unlocking on every path. The event code itself is never range
checked; the C parameter is uint8_t, so any value in 0..255 reaches the wire.
The null-device guard is omitted. -/
def evg_setEvent (o : Oracle) (sequencer address event : Nat)
    (s : DState) : Int × DState :=
  let s1 := lockStep s
  if sequencer ≥ NUMBER_OF_SEQUENCERS then (-1, unlockStep s1)
  else if address ≥ NUMBER_OF_ADDRESSES then (-1, unlockStep s1)
  else if sequencer ≠ 0 then
    let a := writecheck o REGISTER_SEQ_ADDRESS1 address s1
    if a.1 < 0 then (-1, unlockStep a.2)
    else
      let c := writecheck o REGISTER_SEQ_CODE1 event a.2
      if c.1 < 0 then (-1, unlockStep c.2) else (0, unlockStep c.2)
  else
    let a := writecheck o REGISTER_SEQ_ADDRESS0 address s1
    if a.1 < 0 then (-1, unlockStep a.2)
    else
      let c := writecheck o REGISTER_SEQ_CODE0 event a.2
      if c.1 < 0 then (-1, unlockStep c.2) else (0, unlockStep c.2)

/-- The cycle count computed by src/evg.c evg_setTimestamp: the C expression
(uint32_t)timestamp * device->frequency casts the float timestamp to uint32_t
first, truncating it toward zero, and only then multiplies by the frequency
in uint32_t arithmetic. The float timestamp is modelled as a rational; for
the timestamps considered here the truncation result does not depend on the
binary float representation. -/
def cyclesOfCode (timestamp : ℚ) (frequency : Nat) : Nat :=
  (Int.toNat ⌊timestamp⌋ * frequency) % 4294967296

/-- Modelled from the spec: the timestamp conversion the specification
states for set_timestamp, cycles = round(seconds × device frequency). -/
def cyclesOfSpec (timestamp : ℚ) (frequency : Nat) : ℤ :=
  round (timestamp * (frequency : ℚ))

/-- src/evg.c evg_setTimestamp: lock, reject bad sequencer indices and
addresses, reject a timestamp above UINT_MAX / frequency (a float division,
modelled exactly on rationals), convert the timestamp with cyclesOfCode, then
writecheck SEQ_ADDRESSn with the address, SEQ_TIMEn with cycles >> 16, and
SEQ_TIMEn + 2 with cycles reduced to the uint16_t parameter, unlocking on
every path. The device frequency field is passed explicitly. The null-device
guard is omitted. -/
def evg_setTimestamp (o : Oracle) (sequencer address : Nat) (timestamp : ℚ)
    (frequency : Nat) (s : DState) : Int × DState :=
  let s1 := lockStep s
  if sequencer ≥ NUMBER_OF_SEQUENCERS then (-1, unlockStep s1)
  else if address ≥ NUMBER_OF_ADDRESSES then (-1, unlockStep s1)
  else if timestamp > (4294967295 : ℚ) / (frequency : ℚ) then (-1, unlockStep s1)
  else
    let cycles := cyclesOfCode timestamp frequency
    if sequencer ≠ 0 then
      let a := writecheck o REGISTER_SEQ_ADDRESS1 address s1
      if a.1 < 0 then (-1, unlockStep a.2)
      else
        let hi := writecheck o REGISTER_SEQ_TIME1 (cycles >>> 16) a.2
        if hi.1 < 0 then (-1, unlockStep hi.2)
        else
          let lo := writecheck o (REGISTER_SEQ_TIME1 + 2) (cycles % 65536) hi.2
          if lo.1 < 0 then (-1, unlockStep lo.2) else (0, unlockStep lo.2)
    else
      let a := writecheck o REGISTER_SEQ_ADDRESS0 address s1
      if a.1 < 0 then (-1, unlockStep a.2)
      else
        let hi := writecheck o REGISTER_SEQ_TIME0 (cycles >>> 16) a.2
        if hi.1 < 0 then (-1, unlockStep hi.2)
        else
          let lo := writecheck o (REGISTER_SEQ_TIME0 + 2) (cycles % 65536) hi.2
          if lo.1 < 0 then (-1, unlockStep lo.2) else (0, unlockStep lo.2)

/-! ## Device registry and configure -/

/-- One configured device record as filled by src/evg.c configure: name,
parsed ip, port and frequency values. -/
structure DeviceRec where
  name : String
  ip : Nat
  port : Nat
  frequency : Nat
deriving Repr, DecidableEq

/-- The C library atoi on the strings configure receives: the numeric value
of the maximal leading run of decimal digits, 0 when there is none. The
leading white space and sign handling of the library function is not needed
for the arguments considered here. -/
def atoiVal : List Char → Nat → Nat
  | [], acc => acc
  | c :: cs, acc => if c.isDigit then atoiVal cs (acc * 10 + (c.toNat - 48)) else acc

/-- atoi on a Lean string. -/
def atoiStr (str : String) : Nat := atoiVal str.toList 0

/-- src/evg.c configure: reject when the registry already holds
NUMBER_OF_DEVICES records, when the name is empty or of length at or above
NAME_LENGTH, when inet_aton rejects the ip (the library call is modelled by
the Boolean ipOk and the parsed value ipVal), when the port string is missing
or atoi yields 0 or a value above USHRT_MAX, or when the frequency string is
missing or atoi yields 0. Otherwise append a record holding the name, the
parsed ip, htons of the port, and the frequency, and grow the count. There is
no duplicate-name check anywhere in the function. -/
def configure (st : List DeviceRec) (name : String) (ipOk : Bool) (ipVal : Nat)
    (portStr freqStr : String) : Int × List DeviceRec :=
  if st.length ≥ NUMBER_OF_DEVICES then (-1, st)
  else if name.length = 0 ∨ name.length ≥ NAME_LENGTH then (-1, st)
  else if ipOk = false then (-1, st)
  else if portStr.length = 0 ∨ atoiStr portStr = 0 ∨ atoiStr portStr > 65535 then (-1, st)
  else if freqStr.length = 0 ∨ atoiStr freqStr = 0 then (-1, st)
  else (0, st ++ [⟨name, ipVal, htons (atoiStr portStr), atoiStr freqStr⟩])

/-! ## Concrete oracles and helper definitions for the statements -/

/-- The SEQ_ADDRESS register selected by the sequencer branch of src/evg.c
evg_setEvent, evg_getEvent and evg_setTimestamp. -/
def seqAddrReg (n : Nat) : Nat :=
  if n = 0 then REGISTER_SEQ_ADDRESS0 else REGISTER_SEQ_ADDRESS1

/-- The SEQ_CODE register selected by the sequencer branch of src/evg.c
evg_setEvent and evg_getEvent. -/
def seqCodeReg (n : Nat) : Nat :=
  if n = 0 then REGISTER_SEQ_CODE0 else REGISTER_SEQ_CODE1

/-- Oracle of a device on which every write succeeds, the read back after the
first write returns a, and every other read returns b. It makes a two-step
latched write of a then b read back exactly what was written. -/
def oPair (a b : Nat) : Oracle :=
  ⟨fun k _ => if k = 1 then some a else some b, fun _ _ _ => true⟩

/-- Oracle of a device on which every exchange succeeds and every read
returns 0. -/
def oZero : Oracle := ⟨fun _ _ => some 0, fun _ _ _ => true⟩

/-- Oracle of a device on which every write succeeds, the first read returns
0 and every later read returns 0xFFFF; it lets the read-modify-write of
evg_setRfPrescaler with prescaler 0 verify successfully. -/
def oC6 : Oracle := ⟨fun k _ => if k = 0 then some 0 else some 65535, fun _ _ _ => true⟩

/-- A registry already holding one device named a. -/
def regA : List DeviceRec := [⟨"a", 0x0A000001, htons 80, 125⟩]

/-! ## Helper lemmas on writecheck -/

lemma writecheck_res (o : Oracle) (reg data : Nat) (s : DState) :
    (writecheck o reg data s).1 = 0 ∨ (writecheck o reg data s).1 = -1 := by
  unfold writecheck wrStep rdStep
  cases h1 : o.writeok s.k reg data <;> simp [h1]
  cases h2 : o.readv (s.k + 1) reg with
  | none => simp
  | some v => by_cases hv : v = data <;> simp [hv]

lemma writecheck_zero_iff (o : Oracle) (reg data : Nat) (s : DState) :
    (writecheck o reg data s).1 = 0 ↔
      o.writeok s.k reg data = true ∧ o.readv (s.k + 1) reg = some data := by
  unfold writecheck wrStep rdStep
  cases h1 : o.writeok s.k reg data <;> simp [h1]
  cases h2 : o.readv (s.k + 1) reg with
  | none => simp
  | some v =>
      by_cases hv : v = data <;> simp [hv]

lemma writecheck_eq_of_zero (o : Oracle) (reg data : Nat) (s : DState)
    (h : (writecheck o reg data s).1 = 0) :
    writecheck o reg data s
      = (0, ⟨s.k + 2, s.tr ++ [Ev.wr reg data true, Ev.rd reg (some data)], s.locked⟩) := by
  obtain ⟨h1, h2⟩ := (writecheck_zero_iff o reg data s).1 h
  unfold writecheck wrStep rdStep
  simp [h1, h2]

lemma writecheck_locked (o : Oracle) (reg data : Nat) (s : DState) :
    (writecheck o reg data s).2.locked = s.locked := by
  unfold writecheck wrStep rdStep
  cases h1 : o.writeok s.k reg data <;> simp [h1]
  cases h2 : o.readv (s.k + 1) reg with
  | none => simp
  | some v => by_cases hv : v = data <;> simp [hv]

lemma writecheck_tr_append (o : Oracle) (reg data : Nat) (s : DState) :
    ∃ t, (writecheck o reg data s).2.tr = s.tr ++ t := by
  unfold writecheck wrStep rdStep
  cases h1 : o.writeok s.k reg data <;> simp [h1]
  cases h2 : o.readv (s.k + 1) reg with
  | none => simp
  | some v => by_cases hv : v = data <;> simp [hv]

lemma atoiStr_of_len_zero (str : String) (h : str.length = 0) : atoiStr str = 0 := by
  have hd : str.data = [] := List.eq_nil_of_length_eq_zero h
  unfold atoiStr
  rw [String.toList, hd]
  rfl

/-! ## Claims -/

/-- C1: writecheck on a locked device performs exactly one write_reg
followed immediately by one read_reg of the same register with no
intervening exchange; it returns success iff both round trips succeed and
the read-back value equals the written value, and it fails whenever the
read-back differs from the written value (the VerifyMismatch case; every
failure of src/evg.c is the return value -1). -/
theorem evg_C1_writecheck (o : Oracle) (reg data : Nat) (s : DState) :
    ((writecheck o reg data s).1 = 0 ↔
      o.writeok s.k reg data = true ∧ o.readv (s.k + 1) reg = some data) ∧
    ((writecheck o reg data s).1 = 0 →
      (writecheck o reg data s).2.tr
          = s.tr ++ [Ev.wr reg data true, Ev.rd reg (some data)] ∧
        (writecheck o reg data s).2.k = s.k + 2) ∧
    (∀ v, o.writeok s.k reg data = true → o.readv (s.k + 1) reg = some v →
      v ≠ data → (writecheck o reg data s).1 = -1) ∧
    ((writecheck o reg data s).1 = 0 ∨ (writecheck o reg data s).1 = -1) := by
  refine ⟨writecheck_zero_iff o reg data s, ?_, ?_, writecheck_res o reg data s⟩
  · intro h
    rw [writecheck_eq_of_zero o reg data s h]
    exact ⟨rfl, rfl⟩
  · intro v h1 h2 hne
    rcases writecheck_res o reg data s with h | h
    · obtain ⟨_, hr⟩ := (writecheck_zero_iff o reg data s).1 h
      rw [h2] at hr
      exact absurd (Option.some.inj hr) hne
    · exact h

/-- Witness for C1: on a device whose read back echoes the written value 42,
writecheck of 42 succeeds; on a device that reads back 0 after a write of 1,
writecheck fails. -/
theorem evg_C1_writecheck_wit :
    (writecheck (oPair 42 0) REGISTER_RF_CONTROL 42 st0).1 = 0 ∧
    (writecheck (oPair 0 0) REGISTER_RF_CONTROL 1 st0).1 = -1 := by
  constructor
  · exact (evg_C1_writecheck (oPair 42 0) REGISTER_RF_CONTROL 42 st0).1.mpr
      (by constructor <;> rfl)
  · exact (evg_C1_writecheck (oPair 0 0) REGISTER_RF_CONTROL 1 st0).2.2.1 0
      rfl rfl (by decide)

lemma loopFrom_three (f : Nat → Attempt) :
    loopFrom f 0 3
      = if attemptDelivers (f 0) then some (f 0).reply
        else if attemptDelivers (f 1) then some (f 1).reply
        else if attemptDelivers (f 2) then some (f 2).reply
        else none := by
  simp only [loopFrom]

lemma exists_lt_three_iff (P : Nat → Prop) :
    (∃ i, i < 3 ∧ P i) ↔ P 0 ∨ P 1 ∨ P 2 := by
  constructor
  · rintro ⟨i, hi, hp⟩
    interval_cases i <;> tauto
  · rintro (h | h | h)
    exacts [⟨0, by norm_num, h⟩, ⟨1, by norm_num, h⟩, ⟨2, by norm_num, h⟩]

lemma exchangeAttempts_some_iff (net : Net) (request : Msg) :
    (exchangeAttempts net request).isSome ↔
      ∃ i, i < NUMBER_OF_RETRIES ∧ attemptDelivers (net request i) := by
  unfold exchangeAttempts NUMBER_OF_RETRIES
  rw [loopFrom_three, exists_lt_three_iff]
  by_cases d0 : attemptDelivers (net request 0) <;>
    by_cases d1 : attemptDelivers (net request 1) <;>
    by_cases d2 : attemptDelivers (net request 2) <;>
    simp [d0, d1, d2]

lemma exchangeAttempts_first (net : Net) (request : Msg) (i : Nat)
    (hi : i < NUMBER_OF_RETRIES) (hd : attemptDelivers (net request i))
    (hmin : ∀ j, j < i → ¬ attemptDelivers (net request j)) :
    exchangeAttempts net request = some (net request i).reply := by
  unfold exchangeAttempts
  unfold NUMBER_OF_RETRIES at hi ⊢
  rw [loopFrom_three]
  interval_cases i
  · simp [hd]
  · simp [hmin 0 (by norm_num), hd]
  · simp [hmin 0 (by norm_num), hmin 1 (by norm_num), hd]

/-- C2: every single-register exchange of src/evg.c (readreg or writereg)
makes at most NUMBER_OF_RETRIES = 3 attempts; each attempt sends the full
12-octet request and polls with the REPLY_TIMEOUT_MS = 1000 ms timeout; the
first attempt whose send completes, whose poll reports readiness, and whose
read returns a full 12-octet reply is accepted and ends the retries, and a
partial send, a timeout, or a short read moves to the next attempt; when all
three attempts fail the exchange returns the -1 failure (TransportTimeout).
In particular a transport that drops the first two replies and answers the
third yields success, and one that drops all three yields the failure. -/
theorem evg_C2_transport :
    (∀ (net : Net) (reg : Nat),
      (readregT net reg).isSome ↔
        ∃ i, i < NUMBER_OF_RETRIES ∧ attemptDelivers (net (readRequest reg) i)) ∧
    (∀ (net : Net) (reg i : Nat), i < NUMBER_OF_RETRIES →
      attemptDelivers (net (readRequest reg) i) →
      (∀ j, j < i → ¬ attemptDelivers (net (readRequest reg) j)) →
      readregT net reg = some (ntohs (net (readRequest reg) i).reply.data)) ∧
    (∀ (net : Net) (reg data : Nat),
      (writeregT net reg data).isSome ↔
        ∃ i, i < NUMBER_OF_RETRIES ∧ attemptDelivers (net (writeRequest reg data) i)) ∧
    (∀ (m : Msg) (reg : Nat), readregT (dropTwoNet m) reg = some (ntohs m.data)) ∧
    (∀ (reg : Nat), readregT dropAllNet reg = none) ∧
    (∀ (m : Msg) (reg data : Nat), writeregT (dropTwoNet m) reg data = some ()) ∧
    (∀ (reg data : Nat), writeregT dropAllNet reg data = none) := by
  have hdrop2 : ∀ (m : Msg) (request : Msg),
      exchangeAttempts (dropTwoNet m) request = some m := by
    intro m request
    unfold exchangeAttempts NUMBER_OF_RETRIES
    rw [loopFrom_three]
    norm_num [dropTwoNet, attemptDelivers]
  have hdropAll : ∀ (request : Msg),
      exchangeAttempts dropAllNet request = none := by
    intro request
    unfold exchangeAttempts NUMBER_OF_RETRIES
    rw [loopFrom_three]
    norm_num [dropAllNet, attemptDelivers]
  refine ⟨?_, ?_, ?_, ?_, ?_, ?_, ?_⟩
  · intro net reg
    rw [← exchangeAttempts_some_iff net (readRequest reg)]
    unfold readregT
    cases exchangeAttempts net (readRequest reg) <;> simp
  · intro net reg i hi hd hmin
    unfold readregT
    rw [exchangeAttempts_first net (readRequest reg) i hi hd hmin]
  · intro net reg data
    rw [← exchangeAttempts_some_iff net (writeRequest reg data)]
    unfold writeregT
    cases exchangeAttempts net (writeRequest reg data) <;> simp
  · intro m reg
    unfold readregT
    rw [hdrop2 m (readRequest reg)]
  · intro reg
    unfold readregT
    rw [hdropAll (readRequest reg)]
  · intro m reg data
    unfold writeregT
    rw [hdrop2 m (writeRequest reg data)]
  · intro reg data
    unfold writeregT
    rw [hdropAll (writeRequest reg data)]

/-- Witness for C2: on the mock that drops the first two replies and answers
the third with a reply whose data octets decode to 0x7001, reading the
control register succeeds with 0x7001; on the mock that never answers, the
read and the write both fail. -/
theorem evg_C2_transport_wit :
    readregT (dropTwoNet ⟨1, 0, htons 0x7001, 0, 0⟩) REGISTER_CONTROL = some 0x7001 ∧
    readregT dropAllNet REGISTER_CONTROL = none ∧
    writeregT dropAllNet REGISTER_CONTROL CONTROL_ENABLE = none := by
  refine ⟨?_, evg_C2_transport.2.2.2.2.1 REGISTER_CONTROL,
    evg_C2_transport.2.2.2.2.2.2 REGISTER_CONTROL CONTROL_ENABLE⟩
  have h := evg_C2_transport.2.2.2.1 ⟨1, 0, htons 0x7001, 0, 0⟩ REGISTER_CONTROL
  rw [h]
  norm_num [ntohs, htons]

/-- C3: a successful evg_setEvent performs exactly the exchange sequence
write SEQ_ADDRESSn with the address, read SEQ_ADDRESSn back equal to the
address, write SEQ_CODEn with the code, read SEQ_CODEn back equal to the
code, and nothing else; in particular evg_setEvent(0, 5, 0x7F) produces
WRITE 0x44 = 0x0005, READ 0x44 returning 0x0005, WRITE 0x46 = 0x007F,
READ 0x46 returning 0x007F, and succeeds. -/
theorem evg_C3_setEvent :
    (∀ (o : Oracle) (n addr code : Nat) (s : DState),
      n < NUMBER_OF_SEQUENCERS → addr < NUMBER_OF_ADDRESSES →
      (evg_setEvent o n addr code s).1 = 0 →
      (evg_setEvent o n addr code s).2.tr
        = s.tr ++ [Ev.wr (seqAddrReg n) addr true, Ev.rd (seqAddrReg n) (some addr),
                   Ev.wr (seqCodeReg n) code true, Ev.rd (seqCodeReg n) (some code)]) ∧
    evg_setEvent (oPair 5 127) 0 5 127 st0
      = (0, ⟨4, [Ev.wr REGISTER_SEQ_ADDRESS0 5 true, Ev.rd REGISTER_SEQ_ADDRESS0 (some 5),
                 Ev.wr REGISTER_SEQ_CODE0 127 true, Ev.rd REGISTER_SEQ_CODE0 (some 127)],
             false⟩) := by
  constructor
  · intro o n addr code s hn ha hs
    have hn2 : n < 2 := hn
    have hg1 : ¬ (n ≥ NUMBER_OF_SEQUENCERS) := not_le.mpr hn
    have hg2 : ¬ (addr ≥ NUMBER_OF_ADDRESSES) := not_le.mpr ha
    interval_cases n
    · simp only [evg_setEvent, lockStep, if_neg hg1, if_neg hg2, seqAddrReg, seqCodeReg,
        reduceIte] at hs ⊢
      unfold writecheck wrStep rdStep at hs ⊢
      cases h1 : o.writeok s.k REGISTER_SEQ_ADDRESS0 addr <;> simp [h1] at hs ⊢
      cases h2 : o.readv (s.k + 1) REGISTER_SEQ_ADDRESS0 with
      | none => simp [h2] at hs
      | some v =>
          by_cases hv : v = addr
          · subst hv
            simp [h2] at hs ⊢
            cases h3 : o.writeok (s.k + 1 + 1) REGISTER_SEQ_CODE0 code <;> simp [h3] at hs ⊢
            cases h4 : o.readv (s.k + 1 + 1 + 1) REGISTER_SEQ_CODE0 with
            | none => simp [h4] at hs
            | some w =>
                by_cases hw : w = code
                · subst hw
                  simp [h4, unlockStep] at hs ⊢
                · simp [h2, h4, hw] at hs
          · simp [h2, hv] at hs
    · simp only [evg_setEvent, lockStep, if_neg hg1, if_neg hg2, seqAddrReg, seqCodeReg,
        reduceIte] at hs ⊢
      unfold writecheck wrStep rdStep at hs ⊢
      cases h1 : o.writeok s.k REGISTER_SEQ_ADDRESS1 addr <;> simp [h1] at hs ⊢
      cases h2 : o.readv (s.k + 1) REGISTER_SEQ_ADDRESS1 with
      | none => simp [h2] at hs
      | some v =>
          by_cases hv : v = addr
          · subst hv
            simp [h2] at hs ⊢
            cases h3 : o.writeok (s.k + 1 + 1) REGISTER_SEQ_CODE1 code <;> simp [h3] at hs ⊢
            cases h4 : o.readv (s.k + 1 + 1 + 1) REGISTER_SEQ_CODE1 with
            | none => simp [h4] at hs
            | some w =>
                by_cases hw : w = code
                · subst hw
                  simp [h4, unlockStep] at hs ⊢
                · simp [h2, h4, hw] at hs
          · simp [h2, hv] at hs
  · decide

/-- Witness for C3: the universal part applied to the concrete S3 scenario,
sequencer 0, address 5, event code 0x7F, on a device that echoes both
writes. -/
theorem evg_C3_setEvent_wit :
    (evg_setEvent (oPair 5 127) 0 5 127 st0).2.tr
      = [Ev.wr (seqAddrReg 0) 5 true, Ev.rd (seqAddrReg 0) (some 5),
         Ev.wr (seqCodeReg 0) 127 true, Ev.rd (seqCodeReg 0) (some 127)] :=
  evg_C3_setEvent.1 (oPair 5 127) 0 5 127 st0 (by decide) (by decide) (by decide)

/-- C4: the specification says set_timestamp converts with
cycles = round(seconds × frequency), giving 1000 for 0.000008 s at
125 MHz and the write pair 0x0000 / 0x03E8; the code of src/evg.c computes
(uint32_t)timestamp * device->frequency, truncating the seconds value to an
integer before the multiplication, so the same call computes cycles = 0 and
writes 0x0000 to SEQ_TIME0 and 0x0000 to SEQ_TIME0 + 2 while still reporting
success. This theorem evaluates both sides at that failing input. -/
theorem evg_C4_setTimestamp_bug :
    cyclesOfSpec (8 / 1000000) 125000000 = 1000 ∧
    cyclesOfCode (8 / 1000000) 125000000 = 0 ∧
    evg_setTimestamp oZero 0 0 (8 / 1000000) 125000000 st0
      = (0, ⟨6, [Ev.wr REGISTER_SEQ_ADDRESS0 0 true, Ev.rd REGISTER_SEQ_ADDRESS0 (some 0),
                 Ev.wr REGISTER_SEQ_TIME0 0 true, Ev.rd REGISTER_SEQ_TIME0 (some 0),
                 Ev.wr (REGISTER_SEQ_TIME0 + 2) 0 true,
                 Ev.rd (REGISTER_SEQ_TIME0 + 2) (some 0)], false⟩) := by
  have hf : ⌊(8 : ℚ) / 1000000⌋ = 0 := by
    rw [Int.floor_eq_zero_iff]
    constructor <;> norm_num
  have hcycles : cyclesOfCode (8 / 1000000) 125000000 = 0 := by
    unfold cyclesOfCode
    rw [hf]
    rfl
  refine ⟨?_, hcycles, ?_⟩
  · unfold cyclesOfSpec
    rw [show ((8 : ℚ) / 1000000) * ((125000000 : Nat) : ℚ) = ((1000 : ℤ) : ℚ) by norm_num]
    exact round_intCast 1000
  · have hguard : ¬ ((8 : ℚ) / 1000000 > (4294967295 : ℚ) / ((125000000 : Nat) : ℚ)) := by
      push_cast
      norm_num
    simp only [evg_setTimestamp, hcycles, if_neg hguard]
    norm_num [writecheck, wrStep, rdStep, lockStep, unlockStep, st0, oZero,
      NUMBER_OF_SEQUENCERS, NUMBER_OF_ADDRESSES]

/-- C5: the specification says enable_sequencer reads EVENT_ENABLE, toggles
the sequencer bit and writes the result back, returning success when every
exchange succeeds; in src/evg.c the statement after the EVENT_ENABLE read is
a bare block not guarded by any if, which unlocks and returns -1
unconditionally, so on a device where every exchange succeeds the call
still returns -1 after the single read and never writes. This theorem
evaluates the code at that failing input. -/
theorem evg_C5_enableSequencer_bug :
    evg_enableSequencer oZero 0 true st0
      = (-1, ⟨1, [Ev.rd REGISTER_EVENT_ENABLE (some 0)], false⟩) ∧
    evg_enableSequencer oZero 1 false st0
      = (-1, ⟨1, [Ev.rd REGISTER_EVENT_ENABLE (some 0)], false⟩) := by
  constructor <;> decide

/-- Counterexample to C6 as stated: set_rf_prescaler(0) is claimed to return
InvalidArgument with no wire traffic, but src/evg.c only rejects
prescaler >= 32, so prescaler 0 passes the guard, reads RF_CONTROL, and
writechecks the value data | (0 - 1) = 0xFFFF; on a device that echoes the
write the call even succeeds. -/
theorem evg_C6_cex :
    (evg_setRfPrescaler oC6 0 st0).1 = 0 ∧
    (evg_setRfPrescaler oC6 0 st0).2.tr
      = [Ev.rd REGISTER_RF_CONTROL (some 0), Ev.wr REGISTER_RF_CONTROL 65535 true,
         Ev.rd REGISTER_RF_CONTROL (some 65535)] := by
  constructor <;> decide

/-- C6 amended: only prescaler arguments at or above 32 are rejected with no
wire traffic; every prescaler below 32, including 0, proceeds to the
read-modify-write of RF_CONTROL, whose first exchange is the RF_CONTROL
read. -/
theorem evg_C6_amended :
    (∀ (o : Oracle) (p : Nat) (s : DState), 32 ≤ p →
      evg_setRfPrescaler o p s = (-1, ⟨s.k, s.tr, false⟩)) ∧
    (∀ (o : Oracle) (p : Nat), p < 32 →
      ∃ rest, (evg_setRfPrescaler o p st0).2.tr
        = Ev.rd REGISTER_RF_CONTROL (o.readv 0 REGISTER_RF_CONTROL) :: rest) := by
  constructor
  · intro o p s h
    simp only [evg_setRfPrescaler, lockStep]
    rw [if_pos h]
    rfl
  · intro o p h
    simp only [evg_setRfPrescaler, lockStep, st0, if_neg (not_le.mpr h), rdStep]
    cases h2 : o.readv 0 REGISTER_RF_CONTROL with
    | none => exact ⟨[], by simp [h2, unlockStep]⟩
    | some d =>
        simp only [h2]
        obtain ⟨t, ht⟩ := writecheck_tr_append o REGISTER_RF_CONTROL
          (rfPrescalerArg (d &&& (0xFFFF ^^^ RF_CONTROL_DIVIDER_MASK)) p)
          ⟨1, [Ev.rd REGISTER_RF_CONTROL (some d)], true⟩
        refine ⟨t, ?_⟩
        split <;> simpa [unlockStep] using ht

/-- Witness for the amended C6: prescaler 32 is rejected with no exchange,
and prescaler 0 reaches the wire, its first exchange being the RF_CONTROL
read. -/
theorem evg_C6_amended_wit :
    evg_setRfPrescaler oZero 32 st0 = (-1, ⟨0, [], false⟩) ∧
    ∃ rest, (evg_setRfPrescaler oC6 0 st0).2.tr
      = Ev.rd REGISTER_RF_CONTROL (oC6.readv 0 REGISTER_RF_CONTROL) :: rest :=
  ⟨evg_C6_amended.1 oZero 32 st0 (by norm_num), evg_C6_amended.2 oC6 0 (by norm_num)⟩

/-- C7: evg_enable performs a single write to the CONTROL register, of
CONTROL_ENABLE = 0x7001 when enabling and CONTROL_DISABLE = 0xF001 when
disabling, with no read-back; it succeeds exactly when that one transport
round trip succeeds. -/
theorem evg_C7_enable (o : Oracle) (e : Bool) (s : DState) :
    (evg_enable o e s).2.tr
      = s.tr ++ [Ev.wr REGISTER_CONTROL (if e then CONTROL_ENABLE else CONTROL_DISABLE)
          (o.writeok s.k REGISTER_CONTROL (if e then CONTROL_ENABLE else CONTROL_DISABLE))] ∧
    ((evg_enable o e s).1 = 0 ↔
      o.writeok s.k REGISTER_CONTROL (if e then CONTROL_ENABLE else CONTROL_DISABLE) = true) ∧
    (evg_enable o e s).2.k = s.k + 1 := by
  cases e
  · cases h1 : o.writeok s.k REGISTER_CONTROL CONTROL_DISABLE <;>
      simp [evg_enable, wrStep, lockStep, unlockStep, h1]
  · cases h1 : o.writeok s.k REGISTER_CONTROL CONTROL_ENABLE <;>
      simp [evg_enable, wrStep, lockStep, unlockStep, h1]

/-- C8: every embedded device operation leaves the device mutex released when
it returns, on the success path and on every error path, for every oracle,
every argument and every starting state. -/
theorem evg_C8_lock_release (o : Oracle) (s : DState) :
    (∀ e : Bool, (evg_enable o e s).2.locked = false) ∧
    (∀ p : Nat, (evg_setRfPrescaler o p s).2.locked = false) ∧
    (∀ (n : Nat) (e : Bool), (evg_enableSequencer o n e s).2.locked = false) ∧
    (∀ n a c : Nat, (evg_setEvent o n a c s).2.locked = false) ∧
    (∀ (n a : Nat) (t : ℚ) (f : Nat), (evg_setTimestamp o n a t f s).2.locked = false) := by
  refine ⟨?_, ?_, ?_, ?_, ?_⟩
  · intro e
    simp only [evg_enable]
    repeat' split
    all_goals rfl
  · intro p
    simp only [evg_setRfPrescaler]
    repeat' split
    all_goals rfl
  · intro n e
    simp only [evg_enableSequencer]
    repeat' split
    all_goals rfl
  · intro n a c
    simp only [evg_setEvent]
    repeat' split
    all_goals rfl
  · intro n a t f
    simp only [evg_setTimestamp]
    repeat' split
    all_goals rfl

/-- Counterexample to C9 as stated: the registry regA already holds a device
named a, yet configure with the same name a succeeds and grows the registry;
src/evg.c configure has no duplicate-name check. -/
theorem evg_C9_cex :
    (regA.map DeviceRec.name).contains "a" = true ∧
    (configure regA "a" true 0x0A000001 "80" "125").1 = 0 ∧
    (configure regA "a" true 0x0A000001 "80" "125").2.length = regA.length + 1 := by
  refine ⟨by decide, by decide, by decide⟩

/-- C9 amended: configure performs no duplicate-name check; with valid
arguments and a registry below NUMBER_OF_DEVICES it succeeds and appends a
record even when the name is already registered, and it never grows the
registry beyond NUMBER_OF_DEVICES = 10 records, rejecting a full registry
unchanged. -/
theorem evg_C9_amended :
    (∀ (st : List DeviceRec) (name : String) (ipOk : Bool) (ipVal : Nat)
        (portStr freqStr : String),
      NUMBER_OF_DEVICES ≤ st.length →
      configure st name ipOk ipVal portStr freqStr = (-1, st)) ∧
    (∀ (st : List DeviceRec) (name : String) (ipVal : Nat) (portStr freqStr : String),
      st.length < NUMBER_OF_DEVICES →
      0 < name.length → name.length < NAME_LENGTH →
      0 < atoiStr portStr → atoiStr portStr ≤ 65535 →
      0 < atoiStr freqStr →
      configure st name true ipVal portStr freqStr
        = (0, st ++ [⟨name, ipVal, htons (atoiStr portStr), atoiStr freqStr⟩])) ∧
    (∀ (st : List DeviceRec) (name : String) (ipOk : Bool) (ipVal : Nat)
        (portStr freqStr : String),
      st.length ≤ NUMBER_OF_DEVICES →
      (configure st name ipOk ipVal portStr freqStr).2.length ≤ NUMBER_OF_DEVICES) := by
  refine ⟨?_, ?_, ?_⟩
  · intro st name ipOk ipVal portStr freqStr h
    unfold configure
    rw [if_pos h]
  · intro st name ipVal portStr freqStr hlen hn1 hn2 hp1 hp2 hf1
    unfold configure
    rw [if_neg (not_le.mpr hlen)]
    rw [if_neg ?_]
    rotate_left
    · rintro (h | h)
      · omega
      · exact absurd hn2 (not_lt.mpr h)
    rw [if_neg (by simp)]
    rw [if_neg ?_]
    rotate_left
    · rintro (h | h | h)
      · exact absurd (atoiStr_of_len_zero portStr h) (by omega)
      · omega
      · omega
    rw [if_neg ?_]
    · rintro (h | h)
      · exact absurd (atoiStr_of_len_zero freqStr h) (by omega)
      · omega
  · intro st name ipOk ipVal portStr freqStr h
    unfold configure
    by_cases h1 : NUMBER_OF_DEVICES ≤ st.length
    · rw [if_pos h1]
      simpa using h
    · rw [if_neg h1]
      by_cases h2 : (name.length = 0 ∨ name.length ≥ NAME_LENGTH)
      · rw [if_pos h2]
        simpa using h
      · rw [if_neg h2]
        by_cases h3 : ipOk = false
        · rw [if_pos h3]
          simpa using h
        · rw [if_neg h3]
          by_cases h4 : (portStr.length = 0 ∨ atoiStr portStr = 0 ∨ atoiStr portStr > 65535)
          · rw [if_pos h4]
            simpa using h
          · rw [if_neg h4]
            by_cases h5 : (freqStr.length = 0 ∨ atoiStr freqStr = 0)
            · rw [if_pos h5]
              simpa using h
            · rw [if_neg h5]
              simp only [List.length_append, List.length_cons, List.length_nil]
              simp only [NUMBER_OF_DEVICES] at h1 ⊢
              omega

/-- Witness for the amended C9: the duplicate-name configure call on regA
succeeds and appends the record. -/
theorem evg_C9_amended_wit :
    configure regA "a" true 0x0A000001 "80" "125"
      = (0, regA ++ [⟨"a", 0x0A000001, htons 80, 125⟩]) :=
  evg_C9_amended.2.1 regA "a" 0x0A000001 "80" "125"
    (by decide) (by decide) (by decide) (by decide) (by decide) (by decide)

/-- C10: evg_setEvent never validates the event-code argument: every code in
the uint8_t range, including those above 127, passes straight through to the
SEQ_CODEn write, while sequencer indices at or above NUMBER_OF_SEQUENCERS
and addresses at or above NUMBER_OF_ADDRESSES are rejected before any wire
traffic. -/
theorem evg_C10_setEvent_code_unchecked :
    (∀ (o : Oracle) (n addr code : Nat) (s : DState),
      NUMBER_OF_SEQUENCERS ≤ n ∨ NUMBER_OF_ADDRESSES ≤ addr →
      evg_setEvent o n addr code s = (-1, ⟨s.k, s.tr, false⟩)) ∧
    (∀ n addr code : Nat, n < NUMBER_OF_SEQUENCERS → addr < NUMBER_OF_ADDRESSES →
      code ≤ 255 →
      evg_setEvent (oPair addr code) n addr code st0
        = (0, ⟨4, [Ev.wr (seqAddrReg n) addr true, Ev.rd (seqAddrReg n) (some addr),
                   Ev.wr (seqCodeReg n) code true, Ev.rd (seqCodeReg n) (some code)],
               false⟩)) := by
  constructor
  · intro o n addr code s h
    simp only [evg_setEvent, lockStep]
    rcases h with h | h
    · rw [if_pos h]
      rfl
    · by_cases hn : NUMBER_OF_SEQUENCERS ≤ n
      · rw [if_pos hn]
        rfl
      · rw [if_neg hn, if_pos h]
        rfl
  · intro n addr code hn ha _hc
    have hg2 : ¬ (NUMBER_OF_ADDRESSES ≤ addr) := not_le.mpr ha
    have hn2 : n < 2 := hn
    interval_cases n
    · simp [evg_setEvent, writecheck, wrStep, rdStep, lockStep, unlockStep, st0,
        seqAddrReg, seqCodeReg, oPair, hg2, NUMBER_OF_SEQUENCERS]
    · simp [evg_setEvent, writecheck, wrStep, rdStep, lockStep, unlockStep, st0,
        seqAddrReg, seqCodeReg, oPair, hg2, NUMBER_OF_SEQUENCERS]

/-- Witness for C10: the event code 255, well above the 7-bit event range,
is accepted by evg_setEvent and written to SEQ_CODE0. -/
theorem evg_C10_wit :
    evg_setEvent (oPair 0 255) 0 0 255 st0
      = (0, ⟨4, [Ev.wr (seqAddrReg 0) 0 true, Ev.rd (seqAddrReg 0) (some 0),
                 Ev.wr (seqCodeReg 0) 255 true, Ev.rd (seqCodeReg 0) (some 255)],
             false⟩) :=
  evg_C10_setEvent_code_unchecked.2 0 0 255 (by decide) (by decide) (by decide)

end Evg
